import Mathlib

/-!
Shallow embedding of the repository classification engine from
src/src/lib/aztec-classifier.ts: the Nargo.toml analyzer
(analyzeNargoConfig), the manifest fetcher (fetchNargoTomlFromPath),
the locator (findAllNargoTomlFiles), the fallback path catalog
(COMMON_NARGO_PATHS) and the orchestrating engine (classifyRepository).
Network transport outcomes are abstracted into inductive outcome types;
everything downstream of the transport is translated line by line.
-/

/-- Embedding of the parsed `package` table of a Nargo.toml file:
`package.name` and `package.type` are both optional strings. -/
structure NargoPackage where
  name : Option String
  type : Option String
deriving DecidableEq, Repr

/-- Embedding of the `NargoConfig` interface of aztec-classifier.ts:
an optional `package` table and an optional `dependencies` table.
The analyzer only ever iterates the dependency KEYS, so the table is
embedded as the list of its keys in insertion order. -/
structure NargoConfig where
  package : Option NargoPackage
  dependencies : Option (List String)
deriving DecidableEq, Repr

/-- Result record of analyzeNargoConfig. -/
structure NargoAnalysis where
  isAztec : Bool
  type : String
  indicators : List String
deriving DecidableEq, Repr

/-- Embedding of the JS expression `config.package?.type || 'bin'`:
a missing package table, a missing type field, and the falsy empty
string all default to "bin". -/
def packageTypeOf (config : NargoConfig) : String :=
  match config.package with
  | some pkg =>
    match pkg.type with
    | some t => if t == "" then "bin" else t
    | none => "bin"
  | none => "bin"

/-- Helper: list-of-characters prefix test (used for the substring test). -/
def listStartsOut : List Char → List Char → Bool
  | [], _ => true
  | _ :: _, [] => false
  | a :: as, b :: bs => a == b && listStartsOut as bs

/-- Helper: list-of-characters substring test, mirroring JS `includes`. -/
def listHasSub (pat : List Char) : List Char → Bool
  | [] => listStartsOut pat []
  | c :: rest => listStartsOut pat (c :: rest) || listHasSub pat rest

/-- String substring test, mirroring `String.prototype.includes`. -/
def strContains (s pat : String) : Bool :=
  listHasSub pat.toList s.toList

/-- Embedding of the per-dependency test in analyzeNargoConfig lines
264-270: the key is lowercased, then tested with
`includes('aztec') || === 'aztec.nr' || === 'aztec' || includes('aztec_')
|| startsWith('aztec-')`. -/
def isAztecDep (dep : String) : Bool :=
  let depLower := String.mk (dep.toList.map Char.toLower)
  strContains depLower "aztec" || depLower == "aztec.nr" || depLower == "aztec" ||
    strContains depLower "aztec_" || listStartsOut "aztec-".toList depLower.toList

/-- Embedding of the `for (const [dep, _] of Object.entries(config.dependencies))`
loop of analyzeNargoConfig: each matching key sets isAztec and appends one
`dependency:<name>` indicator. -/
def scanDeps : List String → Bool → List String → Bool × List String
  | [], isAztec, indicators => (isAztec, indicators)
  | dep :: rest, isAztec, indicators =>
    if isAztecDep dep then
      scanDeps rest true (indicators ++ ["dependency:" ++ dep])
    else
      scanDeps rest isAztec indicators

/-- Embedding of analyzeNargoConfig (aztec-classifier.ts lines 246-278):
contract type is a definite Aztec indicator, and the dependency keys are
scanned for Aztec-related names. -/
def analyzeNargoConfig (config : NargoConfig) : NargoAnalysis :=
  let packageType := packageTypeOf config
  let isAztec0 : Bool := packageType == "contract"
  let indicators0 : List String :=
    if packageType == "contract" then ["type=contract"] else []
  let scanned :=
    match config.dependencies with
    | some deps => scanDeps deps isAztec0 indicators0
    | none => (isAztec0, indicators0)
  { isAztec := scanned.1, type := packageType, indicators := scanned.2 }

/-- Abstract outcome of one GitHub contents request made by
fetchNargoTomlFromPath, pushed to the oracle boundary: a file response
whose TOML either parses (`found (some c)`) or throws (`found none`),
a directory response, an HTTP 404, an HTTP 403 or 429, an ECONNABORTED
timeout, or any other error. -/
inductive FetchOutcome where
  | found (parsed : Option NargoConfig)
  | foundDir
  | notFound
  | rateLimited
  | timeout
  | otherError
deriving DecidableEq, Repr

/-- True exactly for a transport outcome that yields a parsed manifest. -/
def isParsedManifest : FetchOutcome → Bool
  | .found (some _) => true
  | _ => false

/-- Log statement category emitted by the catch and dir branches of
fetchNargoTomlFromPath (lines 206, 217-238): the failure modes differ
only in log level and message, never in the returned value. -/
inductive FetchLog where
  | silent
  | debugNotFound
  | errorRateLimited
  | errorTimeout
  | warnFetchFailed
deriving DecidableEq, Repr

/-- Embedding of fetchNargoTomlFromPath (lines 185-241): a directory
response returns null; a parse throw is caught and returns null; every
catch branch (404, 403/429, timeout, anything else) returns null. The
owner, repo and path arguments only shape the URL and log text, so the
function is embedded over the transport outcome alone. -/
def fetchNargoTomlFromPath : FetchOutcome → Option NargoConfig
  | .found (some config) => some config
  | .found none => none
  | .foundDir => none
  | .notFound => none
  | .rateLimited => none
  | .timeout => none
  | .otherError => none

/-- The log category each branch of fetchNargoTomlFromPath emits. -/
def fetchLogOf : FetchOutcome → FetchLog
  | .found (some _) => .silent
  | .found none => .warnFetchFailed
  | .foundDir => .silent
  | .notFound => .debugNotFound
  | .rateLimited => .errorRateLimited
  | .timeout => .errorTimeout
  | .otherError => .warnFetchFailed

/-- Abstract outcome of the one code-search request made by
findAllNargoTomlFiles: either a successful response carrying the result
paths, or an axios error described by its optional HTTP status, its
timeout flag (`error.code === 'ECONNABORTED'`) and its optional message. -/
inductive SearchOutcome where
  | success (paths : List String)
  | error (status : Option Nat) (isTimeout : Bool) (message : Option String)
deriving DecidableEq, Repr

/-- Return record of findAllNargoTomlFiles. -/
structure LocatorResult where
  paths : List String
  searchFailed : Bool
  failureReason : Option String
deriving DecidableEq, Repr

/-- Embedding of the failureReason selection in the catch branch of
findAllNargoTomlFiles (lines 163-176): 403 and 429 map to rate limit,
ECONNABORTED to timeout, 401 to authentication, anything else to the raw
message (the falsy empty or missing message defaults to a generic text). -/
def searchFailureReason (status : Option Nat) (isTimeout : Bool)
    (message : Option String) : String :=
  if status == some 403 || status == some 429 then "Rate limit exceeded"
  else if isTimeout then "Request timeout"
  else if status == some 401 then "Authentication failed"
  else
    match message with
    | some m => if m == "" then "Search API error" else m
    | none => "Search API error"

/-- Embedding of findAllNargoTomlFiles (lines 127-180): the try branch
returns the search paths with searchFailed false; the catch branch
returns no paths, searchFailed true and a categorized reason. The
function is total: categorized failures never escape as exceptions. -/
def findAllNargoTomlFiles : SearchOutcome → LocatorResult
  | .success paths => { paths := paths, searchFailed := false, failureReason := none }
  | .error status isTimeout message =>
    { paths := [], searchFailed := true,
      failureReason := some (searchFailureReason status isTimeout message) }

/-- Embedding of COMMON_NARGO_PATHS (lines 283-311), in source order. -/
def COMMON_NARGO_PATHS : List String :=
  [ "Nargo.toml",
    "contracts/Nargo.toml",
    "src/Nargo.toml",
    "packages/contracts/Nargo.toml",
    "circuits/Nargo.toml",
    "app/Nargo.toml",
    "examples/Nargo.toml",
    "packages/aztec-contracts/Nargo.toml",
    "packages/noir-contracts/Nargo.toml",
    "contracts/src/Nargo.toml",
    "packages/aztec-contracts/emitter/Nargo.toml",
    "packages/aztec-contracts/*/Nargo.toml",
    "packages/*/contracts/Nargo.toml",
    "packages/*/Nargo.toml",
    "contracts/*/Nargo.toml",
    "src/contracts/Nargo.toml",
    "src/*/Nargo.toml",
    "examples/*/Nargo.toml",
    "tests/Nargo.toml",
    "test/Nargo.toml",
    "aztec/Nargo.toml",
    "aztec-contracts/Nargo.toml",
    "noir-contracts/Nargo.toml",
    "packages/aztec/Nargo.toml",
    "packages/noir/Nargo.toml" ]

/-- The apiFailure record of a ClassificationResult. -/
structure ApiFailure where
  searchFailed : Bool
  allFetchesFailed : Bool
  reason : String
deriving DecidableEq, Repr

/-- Embedding of the ClassificationResult interface (lines 111-122). -/
structure ClassificationResult where
  isAztec : Bool
  nargoType : String
  filesChecked : Nat
  aztecIndicators : List String
  nargoFiles : List String
  apiFailure : Option ApiFailure
deriving DecidableEq, Repr

/-- The local mutable variables of classifyRepository that the per-path
loop (lines 360-403) updates. -/
structure ClassifyState where
  isAztecRepo : Bool
  primaryType : String
  filesChecked : Nat
  aztecIndicators : List String
  nargoFilesFound : List String
  fallbackFetchAttempts : Nat
  fallbackFetchFailures : Nat
deriving DecidableEq, Repr

/-- The loop-local state at entry to the loop. -/
def initState : ClassifyState :=
  { isAztecRepo := false, primaryType := "unknown", filesChecked := 0,
    aztecIndicators := [], nargoFilesFound := [],
    fallbackFetchAttempts := 0, fallbackFetchFailures := 0 }

/-- One iteration of the per-path loop of classifyRepository
(lines 360-403): count the fallback attempt, fetch the path, and on a
parsed manifest run the analyzer and fold its verdict into the state;
on a null fetch count a fallback failure. The per-path fetch outcome is
supplied by the oracle `fetch`. -/
def classifyStep (usingFallbackPaths : Bool) (fetch : String → FetchOutcome)
    (s : ClassifyState) (path : String) : ClassifyState :=
  let s :=
    if usingFallbackPaths then
      { s with fallbackFetchAttempts := s.fallbackFetchAttempts + 1 }
    else s
  match fetchNargoTomlFromPath (fetch path) with
  | some config =>
    let s := { s with filesChecked := s.filesChecked + 1,
                      nargoFilesFound := s.nargoFilesFound ++ [path] }
    let analysis := analyzeNargoConfig config
    if analysis.isAztec then
      let s := { s with isAztecRepo := true,
                        aztecIndicators := s.aztecIndicators ++
                          [path ++ ": " ++ String.intercalate ", " analysis.indicators] }
      if analysis.type == "contract" then
        { s with primaryType := "contract" }
      else if s.primaryType == "unknown" || !(s.primaryType == "contract") then
        { s with primaryType := analysis.type }
      else s
    else if !s.isAztecRepo then
      if s.primaryType == "unknown" then { s with primaryType := analysis.type }
      else s
    else s
  | none =>
    if usingFallbackPaths then
      { s with fallbackFetchFailures := s.fallbackFetchFailures + 1 }
    else s

/-- The candidate path list classifyRepository iterates (lines 343-352):
the search result paths if any, otherwise the fallback catalog. -/
def pathsToTry (so : SearchOutcome) : List String :=
  if (findAllNargoTomlFiles so).paths.isEmpty then COMMON_NARGO_PATHS
  else (findAllNargoTomlFiles so).paths

/-- Whether a path, under the given fetch oracle, yields a parsed
manifest whose analysis indicates Aztec. -/
def stepIndicatesAztec (fetch : String → FetchOutcome) (path : String) : Bool :=
  match fetchNargoTomlFromPath (fetch path) with
  | some config => (analyzeNargoConfig config).isAztec
  | none => false

/-- Embedding of classifyRepository (lines 317-435): run the locator,
record an apiFailure skeleton if the search failed, pick the candidate
paths (search results, else the fallback catalog), fold the loop over
them, finalize allFetchesFailed, apply the final bin default, and
assemble the ClassificationResult. -/
def classifyRepository (so : SearchOutcome) (fetch : String → FetchOutcome) :
    ClassificationResult :=
  let searchResult := findAllNargoTomlFiles so
  let apiFailure0 : Option ApiFailure :=
    if searchResult.searchFailed then
      some { searchFailed := true, allFetchesFailed := false,
             reason := searchResult.failureReason.getD "Search failed" }
    else none
  let nargoPaths :=
    if searchResult.paths.isEmpty then COMMON_NARGO_PATHS else searchResult.paths
  let usingFallbackPaths := searchResult.searchFailed || searchResult.paths.isEmpty
  let st := nargoPaths.foldl (classifyStep usingFallbackPaths fetch) initState
  let apiFailure : Option ApiFailure :=
    match apiFailure0 with
    | some f =>
      if usingFallbackPaths && decide (0 < st.fallbackFetchAttempts) then
        some { f with allFetchesFailed :=
                 st.fallbackFetchFailures == st.fallbackFetchAttempts }
      else some f
    | none => none
  let primaryType :=
    if !st.isAztecRepo && decide (0 < st.filesChecked) && (st.primaryType == "unknown")
    then "bin" else st.primaryType
  { isAztec := st.isAztecRepo, nargoType := primaryType,
    filesChecked := st.filesChecked, aztecIndicators := st.aztecIndicators,
    nargoFiles := st.nargoFilesFound, apiFailure := apiFailure }

/-- The fallback-mode flag of classifyRepository (line 355):
search failed or the search returned no paths. -/
def usingFB (so : SearchOutcome) : Bool :=
  (findAllNargoTomlFiles so).searchFailed || (findAllNargoTomlFiles so).paths.isEmpty

/-- The loop-local state after the whole per-path loop of one
classifyRepository run. -/
def mainFold (so : SearchOutcome) (f : String → FetchOutcome) : ClassifyState :=
  (pathsToTry so).foldl (classifyStep (usingFB so) f) initState

/-- Concrete manifest: package.type = contract, no dependencies. -/
def contractConfig : NargoConfig := ⟨some ⟨none, some "contract"⟩, none⟩

/-- Concrete manifest: package.type = lib, no dependencies. -/
def libConfig : NargoConfig := ⟨some ⟨none, some "lib"⟩, none⟩

/-- Concrete manifest: package.type = bin, no dependencies. -/
def binConfig : NargoConfig := ⟨some ⟨none, some "bin"⟩, none⟩

/-- Concrete manifest: package.type = bin with an aztec_std dependency. -/
def binAztecConfig : NargoConfig := ⟨some ⟨none, some "bin"⟩, some ["aztec_std"]⟩

/-- Concrete manifest: package.type = contract AND an aztec dependency. -/
def contractDepConfig : NargoConfig := ⟨some ⟨none, some "contract"⟩, some ["aztec"]⟩

/-- Fetch oracle: every path holds a contract manifest. -/
def w1fetch : String → FetchOutcome := fun _ => .found (some contractConfig)

/-- Fetch oracle for the two-manifest contract-precedence scenario of the
spec: a plain bin manifest first, a contract manifest second. -/
def w2fetch : String → FetchOutcome := fun p =>
  if p == "contracts/Nargo.toml" then .found (some binConfig)
  else if p == "packages/a/Nargo.toml" then .found (some contractConfig)
  else .notFound

/-- Fetch oracle exercising the type-overwrite behaviour: a non-Aztec lib
manifest first, then an Aztec-indicating non-contract bin manifest. -/
def c4fetch : String → FetchOutcome := fun p =>
  if p == "contracts/Nargo.toml" then .found (some libConfig)
  else if p == "packages/a/Nargo.toml" then .found (some binAztecConfig)
  else .notFound

/-- Fetch oracle with two non-Aztec manifests of different declared types,
used to exhibit order dependence of the primary type. -/
def c5fetch : String → FetchOutcome := fun p =>
  if p == "a" then .found (some libConfig)
  else if p == "b" then .found (some binConfig)
  else .notFound

/-- Fetch oracle where every path is absent. -/
def absFetch : String → FetchOutcome := fun _ => .notFound

/-- The dependency loop leaves the running isAztec flag in an OR with the
matches found in the remaining keys. -/
theorem scanDeps_fst (l : List String) : ∀ (b : Bool) (ind : List String),
    (scanDeps l b ind).1 = (b || l.any isAztecDep) := by
  induction l with
  | nil => intro b ind; simp [scanDeps]
  | cons d rest ih =>
    intro b ind
    cases hd : isAztecDep d <;> simp [scanDeps, hd, ih]

/-- The dependency loop appends exactly one indicator per matching key. -/
theorem scanDeps_snd (l : List String) : ∀ (b : Bool) (ind : List String),
    (scanDeps l b ind).2 = ind ++ (l.filter isAztecDep).map (fun d => "dependency:" ++ d) := by
  induction l with
  | nil => intro b ind; simp [scanDeps]
  | cons d rest ih =>
    intro b ind
    cases hd : isAztecDep d <;> simp [scanDeps, hd, ih]

/-- The analyzer always reports the (defaulted) declared package type. -/
theorem analyzeNargoConfig_type (c : NargoConfig) :
    (analyzeNargoConfig c).type = packageTypeOf c := by
  unfold analyzeNargoConfig
  cases hd : c.dependencies <;> simp [hd]

/-- Characterization of the analyzer verdict: contract type or at least
one matching dependency key. -/
theorem analyzeNargoConfig_isAztec (c : NargoConfig) :
    (analyzeNargoConfig c).isAztec
      = ((packageTypeOf c == "contract") || (c.dependencies.getD []).any isAztecDep) := by
  unfold analyzeNargoConfig
  cases hd : c.dependencies with
  | none => simp [hd]
  | some deps => simp [hd, scanDeps_fst]

/-- Characterization of the analyzer indicators: the contract indicator
when the type is contract, then one indicator per matching dependency. -/
theorem analyzeNargoConfig_indicators (c : NargoConfig) :
    (analyzeNargoConfig c).indicators
      = (if packageTypeOf c == "contract" then ["type=contract"] else [])
        ++ ((c.dependencies.getD []).filter isAztecDep).map (fun d => "dependency:" ++ d) := by
  unfold analyzeNargoConfig
  cases hd : c.dependencies with
  | none => simp [hd]
  | some deps => simp [hd, scanDeps_snd]

/-- One loop step ORs the per-path verdict into the flag. -/
theorem classifyStep_isAztecRepo (u : Bool) (f : String → FetchOutcome)
    (s : ClassifyState) (p : String) :
    (classifyStep u f s p).isAztecRepo = (s.isAztecRepo || stepIndicatesAztec f p) := by
  unfold classifyStep stepIndicatesAztec
  cases hf : fetchNargoTomlFromPath (f p) with
  | none => cases u <;> simp
  | some c =>
    cases u <;> cases ha : (analyzeNargoConfig c).isAztec <;>
      simp [ha] <;> split <;> (try split) <;> rfl

/-- The whole loop computes the OR of the per-path verdicts. -/
theorem foldl_isAztecRepo (u : Bool) (f : String → FetchOutcome) :
    ∀ (l : List String) (s : ClassifyState),
      (List.foldl (classifyStep u f) s l).isAztecRepo
        = (s.isAztecRepo || l.any (stepIndicatesAztec f)) := by
  intro l
  induction l with
  | nil => intro s; simp
  | cons p rest ih =>
    intro s
    simp only [List.foldl_cons, List.any_cons, ih, classifyStep_isAztecRepo, Bool.or_assoc]

/-- A primary type of contract survives any later loop step. -/
theorem classifyStep_primary_contract (u : Bool) (f : String → FetchOutcome)
    (s : ClassifyState) (p : String) (h : s.primaryType = "contract") :
    (classifyStep u f s p).primaryType = "contract" := by
  unfold classifyStep
  cases hf : fetchNargoTomlFromPath (f p) with
  | none => cases u <;> simp [h]
  | some c =>
    cases u <;> cases ha : (analyzeNargoConfig c).isAztec <;>
      simp [ha, h] <;> split <;> simp [h]

/-- A parsed contract manifest sets the primary type to contract. -/
theorem classifyStep_contract_set (u : Bool) (f : String → FetchOutcome)
    (s : ClassifyState) (p : String) (c : NargoConfig)
    (hf : fetchNargoTomlFromPath (f p) = some c)
    (ht : packageTypeOf c = "contract") :
    (classifyStep u f s p).primaryType = "contract" := by
  have hA : (analyzeNargoConfig c).isAztec = true := by
    rw [analyzeNargoConfig_isAztec, ht]; simp
  have hT : (analyzeNargoConfig c).type = "contract" := by
    rw [analyzeNargoConfig_type, ht]
  unfold classifyStep
  cases u <;> simp [hf, hA, hT]

/-- A primary type of contract survives the rest of the loop. -/
theorem foldl_primary_contract (u : Bool) (f : String → FetchOutcome) :
    ∀ (l : List String) (s : ClassifyState), s.primaryType = "contract" →
      (List.foldl (classifyStep u f) s l).primaryType = "contract" := by
  intro l
  induction l with
  | nil => intro s h; simpa
  | cons p rest ih =>
    intro s h
    exact ih _ (classifyStep_primary_contract u f s p h)

/-- A contract manifest anywhere in the path list forces the final
primary type to contract. -/
theorem foldl_contract_of_mem (u : Bool) (f : String → FetchOutcome) :
    ∀ (l : List String) (s : ClassifyState) (p : String) (c : NargoConfig),
      p ∈ l → fetchNargoTomlFromPath (f p) = some c →
      packageTypeOf c = "contract" →
      (List.foldl (classifyStep u f) s l).primaryType = "contract" := by
  intro l
  induction l with
  | nil => intro s p c h; cases h
  | cons q rest ih =>
    intro s p c hmem hf ht
    rcases List.mem_cons.mp hmem with h | h
    · subst h
      exact foldl_primary_contract u f rest _ (classifyStep_contract_set u f s p c hf ht)
    · exact ih _ p c h hf ht

/-- One loop step increments the examined-file counter exactly when the
fetch parsed a manifest. -/
theorem classifyStep_filesChecked (u : Bool) (f : String → FetchOutcome)
    (s : ClassifyState) (p : String) :
    (classifyStep u f s p).filesChecked
      = s.filesChecked + (if (fetchNargoTomlFromPath (f p)).isSome then 1 else 0) := by
  unfold classifyStep
  cases hf : fetchNargoTomlFromPath (f p) with
  | none => cases u <;> simp
  | some c =>
    cases u <;> cases ha : (analyzeNargoConfig c).isAztec <;>
      simp [ha] <;> split <;> (try split) <;> rfl

/-- One loop step increments the fallback attempt counter exactly when in
fallback mode. -/
theorem classifyStep_attempts (u : Bool) (f : String → FetchOutcome)
    (s : ClassifyState) (p : String) :
    (classifyStep u f s p).fallbackFetchAttempts
      = s.fallbackFetchAttempts + (if u then 1 else 0) := by
  unfold classifyStep
  cases hf : fetchNargoTomlFromPath (f p) with
  | none => cases u <;> simp
  | some c =>
    cases u <;> cases ha : (analyzeNargoConfig c).isAztec <;>
      simp [ha] <;> split <;> (try split) <;> rfl

/-- One loop step increments the fallback failure counter exactly when in
fallback mode and the fetch returned null. -/
theorem classifyStep_failures (u : Bool) (f : String → FetchOutcome)
    (s : ClassifyState) (p : String) :
    (classifyStep u f s p).fallbackFetchFailures
      = s.fallbackFetchFailures
        + (if u && (fetchNargoTomlFromPath (f p)).isNone then 1 else 0) := by
  unfold classifyStep
  cases hf : fetchNargoTomlFromPath (f p) with
  | none => cases u <;> simp
  | some c =>
    cases u <;> cases ha : (analyzeNargoConfig c).isAztec <;>
      simp [ha] <;> split <;> (try split) <;> rfl

/-- The loop counts exactly the paths whose fetch parsed. -/
theorem foldl_filesChecked (u : Bool) (f : String → FetchOutcome) :
    ∀ (l : List String) (s : ClassifyState),
      (List.foldl (classifyStep u f) s l).filesChecked
        = s.filesChecked + l.countP (fun p => (fetchNargoTomlFromPath (f p)).isSome) := by
  intro l
  induction l with
  | nil => intro s; simp
  | cons p rest ih =>
    intro s
    simp only [List.foldl_cons, ih, classifyStep_filesChecked, List.countP_cons]
    split <;> omega

/-- In fallback mode every path counts as one attempt. -/
theorem foldl_attempts (f : String → FetchOutcome) :
    ∀ (l : List String) (s : ClassifyState),
      (List.foldl (classifyStep true f) s l).fallbackFetchAttempts
        = s.fallbackFetchAttempts + l.length := by
  intro l
  induction l with
  | nil => intro s; simp
  | cons p rest ih =>
    intro s
    simp only [List.foldl_cons, ih, classifyStep_attempts, List.length_cons, if_pos]
    omega

/-- In fallback mode the failure counter counts the absent fetches. -/
theorem foldl_failures (f : String → FetchOutcome) :
    ∀ (l : List String) (s : ClassifyState),
      (List.foldl (classifyStep true f) s l).fallbackFetchFailures
        = s.fallbackFetchFailures
          + l.countP (fun p => (fetchNargoTomlFromPath (f p)).isNone) := by
  intro l
  induction l with
  | nil => intro s; simp
  | cons p rest ih =>
    intro s
    simp only [List.foldl_cons, ih, classifyStep_failures, List.countP_cons, Bool.true_and]
    split <;> omega

/-- A loop step over an absent path changes no classification field. -/
theorem classifyStep_none (u : Bool) (f : String → FetchOutcome)
    (s : ClassifyState) (p : String) (hf : fetchNargoTomlFromPath (f p) = none) :
    (classifyStep u f s p).isAztecRepo = s.isAztecRepo
    ∧ (classifyStep u f s p).primaryType = s.primaryType
    ∧ (classifyStep u f s p).filesChecked = s.filesChecked
    ∧ (classifyStep u f s p).aztecIndicators = s.aztecIndicators
    ∧ (classifyStep u f s p).nargoFilesFound = s.nargoFilesFound := by
  unfold classifyStep
  cases u <;> simp [hf]

/-- A loop over all-absent paths changes no classification field. -/
theorem foldl_all_none (u : Bool) (f : String → FetchOutcome) :
    ∀ (l : List String) (s : ClassifyState),
      (∀ p ∈ l, fetchNargoTomlFromPath (f p) = none) →
      (List.foldl (classifyStep u f) s l).isAztecRepo = s.isAztecRepo
      ∧ (List.foldl (classifyStep u f) s l).primaryType = s.primaryType
      ∧ (List.foldl (classifyStep u f) s l).filesChecked = s.filesChecked
      ∧ (List.foldl (classifyStep u f) s l).aztecIndicators = s.aztecIndicators
      ∧ (List.foldl (classifyStep u f) s l).nargoFilesFound = s.nargoFilesFound := by
  intro l
  induction l with
  | nil => intro s _; simp
  | cons p rest ih =>
    intro s h
    have hp := h p (List.mem_cons_self p rest)
    have hstep := classifyStep_none u f s p hp
    have hrest := ih (classifyStep u f s p) (fun q hq => h q (List.mem_cons_of_mem p hq))
    simp only [List.foldl_cons]
    exact ⟨hrest.1.trans hstep.1,
           hrest.2.1.trans hstep.2.1,
           hrest.2.2.1.trans hstep.2.2.1,
           hrest.2.2.2.1.trans hstep.2.2.2.1,
           hrest.2.2.2.2.trans hstep.2.2.2.2⟩

/-- A step whose path does not indicate Aztec appends no indicator. -/
theorem classifyStep_indicators_of_false (u : Bool) (f : String → FetchOutcome)
    (s : ClassifyState) (p : String) (h : stepIndicatesAztec f p = false) :
    (classifyStep u f s p).aztecIndicators = s.aztecIndicators := by
  unfold classifyStep
  cases hf : fetchNargoTomlFromPath (f p) with
  | none => cases u <;> simp
  | some c =>
    have ha : (analyzeNargoConfig c).isAztec = false := by
      unfold stepIndicatesAztec at h; rw [hf] at h; simpa using h
    cases u <;> simp [ha] <;> split <;> (try split) <;> rfl

/-- A step whose path indicates Aztec appends exactly one indicator. -/
theorem classifyStep_indicators_of_true (u : Bool) (f : String → FetchOutcome)
    (s : ClassifyState) (p : String) (h : stepIndicatesAztec f p = true) :
    ∃ x, (classifyStep u f s p).aztecIndicators = s.aztecIndicators ++ [x] := by
  unfold stepIndicatesAztec at h
  unfold classifyStep
  cases hf : fetchNargoTomlFromPath (f p) with
  | none => rw [hf] at h; exact absurd h (by simp)
  | some c =>
    have ha : (analyzeNargoConfig c).isAztec = true := by
      rw [hf] at h; simpa using h
    refine ⟨p ++ ": " ++ String.intercalate ", " (analyzeNargoConfig c).indicators, ?_⟩
    cases u <;> simp [ha] <;> split <;> (try split) <;> rfl

/-- The loop preserves the linkage between the flag and the indicator
list being non-empty. -/
theorem foldl_isAztec_iff_indicators (u : Bool) (f : String → FetchOutcome) :
    ∀ (l : List String) (s : ClassifyState),
      (s.isAztecRepo = true ↔ s.aztecIndicators ≠ []) →
      ((List.foldl (classifyStep u f) s l).isAztecRepo = true
        ↔ (List.foldl (classifyStep u f) s l).aztecIndicators ≠ []) := by
  intro l
  induction l with
  | nil => intro s h; simpa
  | cons p rest ih =>
    intro s h
    simp only [List.foldl_cons]
    apply ih
    cases hs : stepIndicatesAztec f p with
    | false =>
      rw [classifyStep_indicators_of_false u f s p hs, classifyStep_isAztecRepo, hs]
      simpa using h
    | true =>
      obtain ⟨x, hx⟩ := classifyStep_indicators_of_true u f s p hs
      rw [hx, classifyStep_isAztecRepo, hs]
      simp

/-- The returned isAztec flag is the final loop state flag. -/
theorem classifyRepository_isAztec_def (so : SearchOutcome) (f : String → FetchOutcome) :
    (classifyRepository so f).isAztec = (mainFold so f).isAztecRepo := rfl

/-- The returned filesChecked count is the final loop state count. -/
theorem classifyRepository_filesChecked_def (so : SearchOutcome) (f : String → FetchOutcome) :
    (classifyRepository so f).filesChecked = (mainFold so f).filesChecked := rfl

/-- The returned indicator list is the final loop state list. -/
theorem classifyRepository_indicators_def (so : SearchOutcome) (f : String → FetchOutcome) :
    (classifyRepository so f).aztecIndicators = (mainFold so f).aztecIndicators := rfl

/-- The returned type is the final loop state type with the bin default
applied afterwards. -/
theorem classifyRepository_nargoType_def (so : SearchOutcome) (f : String → FetchOutcome) :
    (classifyRepository so f).nargoType
      = if !(mainFold so f).isAztecRepo && decide (0 < (mainFold so f).filesChecked)
           && ((mainFold so f).primaryType == "unknown")
        then "bin" else (mainFold so f).primaryType := rfl

/-- A successful search never yields an apiFailure record. -/
theorem classifyRepository_apiFailure_success (ps : List String) (f : String → FetchOutcome) :
    (classifyRepository (.success ps) f).apiFailure = none := by
  unfold classifyRepository
  simp [findAllNargoTomlFiles]

/-- Shape of the apiFailure record after a failed search. -/
theorem classifyRepository_apiFailure_error (st : Option Nat) (t : Bool) (m : Option String)
    (f : String → FetchOutcome) :
    (classifyRepository (.error st t m) f).apiFailure
      = if usingFB (.error st t m)
           && decide (0 < (mainFold (.error st t m) f).fallbackFetchAttempts)
        then some { searchFailed := true,
                    allFetchesFailed := (mainFold (.error st t m) f).fallbackFetchFailures
                      == (mainFold (.error st t m) f).fallbackFetchAttempts,
                    reason := searchFailureReason st t m }
        else some { searchFailed := true, allFetchesFailed := false,
                    reason := searchFailureReason st t m } := rfl

/-- The primary type update performed by a step over a manifest that does
not indicate Aztec: set only from the unknown sentinel while the flag is
still down. -/
theorem classifyStep_type_nonAztec (u : Bool) (f : String → FetchOutcome)
    (s : ClassifyState) (p : String) (c : NargoConfig)
    (hf : fetchNargoTomlFromPath (f p) = some c)
    (ha : (analyzeNargoConfig c).isAztec = false) :
    (classifyStep u f s p).primaryType
      = if s.isAztecRepo = false ∧ s.primaryType = "unknown"
        then (analyzeNargoConfig c).type else s.primaryType := by
  unfold classifyStep
  cases hb : s.isAztecRepo <;> by_cases hu : s.primaryType = "unknown" <;>
    cases u <;> simp [hf, ha, hb, hu]

/-- The primary type update performed by a step over an Aztec-indicating
manifest of non-contract type: it overwrites anything except contract. -/
theorem classifyStep_type_aztec_noncontract (u : Bool) (f : String → FetchOutcome)
    (s : ClassifyState) (p : String) (c : NargoConfig)
    (hf : fetchNargoTomlFromPath (f p) = some c)
    (ha : (analyzeNargoConfig c).isAztec = true)
    (ht : (analyzeNargoConfig c).type ≠ "contract") :
    (classifyStep u f s p).primaryType
      = if s.primaryType = "contract" then s.primaryType else (analyzeNargoConfig c).type := by
  unfold classifyStep
  by_cases hc : s.primaryType = "contract" <;> cases u <;> simp [hf, ha, ht, hc]

/-- Permuting a list does not change the any-reduction of a predicate. -/
theorem any_of_perm {l1 l2 : List String} (h : l1.Perm l2) (f : String → Bool) :
    l1.any f = l2.any f := by
  cases hx : l1.any f with
  | true =>
    rw [List.any_eq_true] at hx
    obtain ⟨x, hm, hfx⟩ := hx
    exact (List.any_eq_true.mpr ⟨x, h.mem_iff.mp hm, hfx⟩).symm
  | false =>
    rw [List.any_eq_false] at hx
    exact ((List.any_eq_false).mpr (fun x hm => hx x (h.mem_iff.mpr hm))).symm

/-- C1 (confirmed). Monotonic OR over manifests: whenever some candidate
path yields a parsed manifest analyzed as Aztec-indicating, the returned
ClassificationResult has isAztec true, regardless of every other path;
and the flag is monotonic inside the run: once a loop state has the flag
set, every later loop state, over any remaining paths, keeps it set. -/
theorem classify_monotonic_or_isAztec (so : SearchOutcome) (f : String → FetchOutcome)
    (p : String) (hmem : p ∈ pathsToTry so) (hind : stepIndicatesAztec f p = true) :
    (classifyRepository so f).isAztec = true
    ∧ ∀ (u : Bool) (s : ClassifyState) (l : List String), s.isAztecRepo = true →
        (List.foldl (classifyStep u f) s l).isAztecRepo = true := by
  constructor
  · rw [classifyRepository_isAztec_def]
    unfold mainFold
    rw [foldl_isAztecRepo]
    simp only [initState, Bool.false_or]
    exact List.any_eq_true.mpr ⟨p, hmem, hind⟩
  · intro u s l hs
    rw [foldl_isAztecRepo, hs, Bool.true_or]

/-- Witness for C1: a repository whose single searched path holds a
contract manifest is classified Aztec. -/
theorem classify_monotonic_or_isAztec_witness :
    ("Nargo.toml" ∈ pathsToTry (.success ["Nargo.toml"])
      ∧ stepIndicatesAztec w1fetch "Nargo.toml" = true)
    ∧ ((classifyRepository (.success ["Nargo.toml"]) w1fetch).isAztec = true
       ∧ ∀ (u : Bool) (s : ClassifyState) (l : List String), s.isAztecRepo = true →
           (List.foldl (classifyStep u w1fetch) s l).isAztecRepo = true) :=
  ⟨⟨by decide, by decide⟩,
   classify_monotonic_or_isAztec (.success ["Nargo.toml"]) w1fetch "Nargo.toml"
     (by decide) (by decide)⟩

/-- C2 (confirmed). Contract-type precedence: if any candidate path
yields a parsed manifest whose effective package type is contract, then
the returned nargoType is contract, no matter what other manifests
declare and no matter where in the path order the contract manifest
sits. -/
theorem classify_contract_type_precedence (so : SearchOutcome) (f : String → FetchOutcome)
    (p : String) (c : NargoConfig) (hmem : p ∈ pathsToTry so)
    (hf : fetchNargoTomlFromPath (f p) = some c)
    (ht : packageTypeOf c = "contract") :
    (classifyRepository so f).nargoType = "contract" := by
  have hfold : (mainFold so f).primaryType = "contract" :=
    foldl_contract_of_mem _ f _ initState p c hmem hf ht
  rw [classifyRepository_nargoType_def, hfold]
  simp

/-- Witness for C2: the two-manifest scenario of the spec, a bin manifest
followed by a contract manifest, yields nargoType contract. -/
theorem classify_contract_type_precedence_witness :
    ("packages/a/Nargo.toml"
        ∈ pathsToTry (.success ["contracts/Nargo.toml", "packages/a/Nargo.toml"])
      ∧ fetchNargoTomlFromPath (w2fetch "packages/a/Nargo.toml") = some contractConfig
      ∧ packageTypeOf contractConfig = "contract")
    ∧ (classifyRepository (.success ["contracts/Nargo.toml", "packages/a/Nargo.toml"])
        w2fetch).nargoType = "contract" :=
  ⟨⟨by decide, by decide, by decide⟩,
   classify_contract_type_precedence
     (.success ["contracts/Nargo.toml", "packages/a/Nargo.toml"]) w2fetch
     "packages/a/Nargo.toml" contractConfig (by decide) (by decide) (by decide)⟩

/-- C10 (confirmed). Implicit evidence invariant: for every search
outcome and fetch oracle, the returned isAztec flag is true exactly when
the returned aztecIndicators list is non-empty, so every positive
verdict carries at least one path-prefixed indicator and a negative
verdict carries none. -/
theorem classify_isAztec_iff_indicators (so : SearchOutcome) (f : String → FetchOutcome) :
    (classifyRepository so f).isAztec = true
      ↔ (classifyRepository so f).aztecIndicators ≠ [] := by
  rw [classifyRepository_isAztec_def, classifyRepository_indicators_def]
  unfold mainFold
  exact foldl_isAztec_iff_indicators _ f _ initState (by simp [initState])

/-- C6 (confirmed). No-manifest baseline: when the search succeeds with
zero paths and every fallback-catalog path fetches absent, the result
has filesChecked zero, isAztec false, nargoType unknown and no
apiFailure; and in general a result with filesChecked zero and no
apiFailure always reports the unknown sentinel, never a guessed type. -/
theorem classify_no_manifest_baseline (f : String → FetchOutcome)
    (habs : ∀ p ∈ COMMON_NARGO_PATHS, fetchNargoTomlFromPath (f p) = none) :
    ((classifyRepository (.success []) f).filesChecked = 0
     ∧ (classifyRepository (.success []) f).isAztec = false
     ∧ (classifyRepository (.success []) f).nargoType = "unknown"
     ∧ (classifyRepository (.success []) f).apiFailure = none)
    ∧ ∀ (so : SearchOutcome) (g : String → FetchOutcome),
        (classifyRepository so g).filesChecked = 0 →
        (classifyRepository so g).apiFailure = none →
        (classifyRepository so g).nargoType = "unknown" := by
  constructor
  · have hall := foldl_all_none (usingFB (.success [])) f (pathsToTry (.success []))
      initState habs
    refine ⟨?_, ?_, ?_, classifyRepository_apiFailure_success [] f⟩
    · rw [classifyRepository_filesChecked_def]; unfold mainFold; rw [hall.2.2.1]; rfl
    · rw [classifyRepository_isAztec_def]; unfold mainFold; rw [hall.1]; rfl
    · rw [classifyRepository_nargoType_def]; unfold mainFold
      rw [hall.1, hall.2.1, hall.2.2.1]; rfl
  · intro so g h0 _hapi
    have h0' : (mainFold so g).filesChecked = 0 := by
      rw [← classifyRepository_filesChecked_def]; exact h0
    have heq := foldl_filesChecked (usingFB so) g (pathsToTry so) initState
    unfold mainFold at h0'
    rw [heq] at h0'
    have hcnt : (pathsToTry so).countP
        (fun p => (fetchNargoTomlFromPath (g p)).isSome) = 0 := by
      simpa [initState] using h0'
    have hnone : ∀ p ∈ pathsToTry so, fetchNargoTomlFromPath (g p) = none := by
      intro p hp
      have hns := (List.countP_eq_zero.mp hcnt) p hp
      simpa [Option.not_isSome_iff_eq_none] using hns
    have hall := foldl_all_none (usingFB so) g (pathsToTry so) initState hnone
    rw [classifyRepository_nargoType_def]
    unfold mainFold
    rw [hall.1, hall.2.1, hall.2.2.1]
    rfl

/-- Witness for C6: the all-absent oracle under an empty successful
search yields the baseline result. -/
theorem classify_no_manifest_baseline_witness :
    (∀ p ∈ COMMON_NARGO_PATHS, fetchNargoTomlFromPath (absFetch p) = none)
    ∧ (((classifyRepository (.success []) absFetch).filesChecked = 0
        ∧ (classifyRepository (.success []) absFetch).isAztec = false
        ∧ (classifyRepository (.success []) absFetch).nargoType = "unknown"
        ∧ (classifyRepository (.success []) absFetch).apiFailure = none)
       ∧ ∀ (so : SearchOutcome) (g : String → FetchOutcome),
           (classifyRepository so g).filesChecked = 0 →
           (classifyRepository so g).apiFailure = none →
           (classifyRepository so g).nargoType = "unknown") :=
  ⟨fun _ _ => rfl, classify_no_manifest_baseline absFetch (fun _ _ => rfl)⟩

/-- C7 (confirmed). Fallback exhaustion diagnosis: after a failed search
the result always carries an apiFailure whose searchFailed flag is true
and whose reason is exactly the locator failureReason, and its
allFetchesFailed flag is true exactly when every fallback-catalog path
fetched absent. -/
theorem classify_search_failure_diagnosis (st : Option Nat) (t : Bool) (m : Option String)
    (f : String → FetchOutcome) :
    ∃ fail : ApiFailure,
      (classifyRepository (.error st t m) f).apiFailure = some fail
      ∧ fail.searchFailed = true
      ∧ some fail.reason = (findAllNargoTomlFiles (.error st t m)).failureReason
      ∧ (fail.allFetchesFailed = true
          ↔ ∀ p ∈ COMMON_NARGO_PATHS, fetchNargoTomlFromPath (f p) = none) := by
  have husing : usingFB (.error st t m) = true := rfl
  have hpaths : pathsToTry (.error st t m) = COMMON_NARGO_PATHS := rfl
  have hattempts : (mainFold (.error st t m) f).fallbackFetchAttempts
      = COMMON_NARGO_PATHS.length := by
    unfold mainFold
    rw [husing, hpaths, foldl_attempts]
    simp [initState]
  have hfails : (mainFold (.error st t m) f).fallbackFetchFailures
      = COMMON_NARGO_PATHS.countP (fun p => (fetchNargoTomlFromPath (f p)).isNone) := by
    unfold mainFold
    rw [husing, hpaths, foldl_failures]
    simp [initState]
  have hcond : (usingFB (.error st t m)
      && decide (0 < (mainFold (.error st t m) f).fallbackFetchAttempts)) = true := by
    rw [husing, hattempts]; rfl
  have happly := classifyRepository_apiFailure_error st t m f
  rw [hcond, if_pos rfl] at happly
  refine ⟨_, happly, rfl, rfl, ?_⟩
  rw [hfails, hattempts, beq_iff_eq, List.countP_eq_length]
  constructor
  · intro h p hp
    have hnp := h p hp
    simpa [Option.isNone_iff_eq_none] using hnp
  · intro h p hp
    simp [h p hp]

/-- C9 (confirmed). Locator totality and failure invariant: the locator
is a total function into LocatorResult (categorized failures never
throw); in every result the failureReason is present exactly when
searchFailed is true; every failure outcome maps to empty paths,
searchFailed true and a categorical reason string; every success maps to
the found paths with searchFailed false. -/
theorem locator_never_throws_failure_invariant :
    (∀ so : SearchOutcome,
        (findAllNargoTomlFiles so).failureReason.isSome
          = (findAllNargoTomlFiles so).searchFailed)
    ∧ (∀ (st : Option Nat) (t : Bool) (m : Option String),
        findAllNargoTomlFiles (.error st t m)
          = { paths := [], searchFailed := true,
              failureReason := some (searchFailureReason st t m) })
    ∧ (∀ ps : List String,
        findAllNargoTomlFiles (.success ps)
          = { paths := ps, searchFailed := false, failureReason := none }) := by
  refine ⟨?_, fun st t m => rfl, fun ps => rfl⟩
  intro so; cases so <;> rfl

/-- Counterexample for C3: a contract manifest that also declares an
aztec dependency gets BOTH the contract indicator and a dependency
indicator, so the indicator sequence is not exactly the singleton the
claim asserts — the dependency scan is not an Else of the type check. -/
theorem analyzer_contract_deps_counterexample :
    (analyzeNargoConfig contractDepConfig).indicators = ["type=contract", "dependency:aztec"]
    ∧ (analyzeNargoConfig contractDepConfig).indicators ≠ ["type=contract"]
    ∧ packageTypeOf contractDepConfig = "contract" := by
  refine ⟨by decide, by decide, by decide⟩

/-- C3 (corrected). The analyzer scans the dependency keys
unconditionally, for contract manifests too: the indicators are always
the contract indicator (when the type is contract) followed by one
dependency indicator per matching key, and the verdict is the OR of the
type test and the dependency matches. -/
theorem analyzer_unconditional_dep_scan (c : NargoConfig) :
    (analyzeNargoConfig c).indicators
      = (if packageTypeOf c == "contract" then ["type=contract"] else [])
        ++ ((c.dependencies.getD []).filter isAztecDep).map (fun d => "dependency:" ++ d)
    ∧ (analyzeNargoConfig c).isAztec
      = ((packageTypeOf c == "contract") || (c.dependencies.getD []).any isAztecDep) :=
  ⟨analyzeNargoConfig_indicators c, analyzeNargoConfig_isAztec c⟩

/-- Counterexample for C4: a first manifest (type lib, not
Aztec-indicating) sets the primary type to lib, yet a later
Aztec-indicating manifest of non-contract type bin overwrites it, so the
final nargoType is bin, not the lib the claim requires to survive. -/
theorem classify_type_overwrite_counterexample :
    (analyzeNargoConfig libConfig).isAztec = false
    ∧ (analyzeNargoConfig libConfig).type = "lib"
    ∧ (analyzeNargoConfig binAztecConfig).isAztec = true
    ∧ (analyzeNargoConfig binAztecConfig).type = "bin"
    ∧ (classifyRepository
        (.success ["contracts/Nargo.toml", "packages/a/Nargo.toml"]) c4fetch).nargoType
        = "bin" := by
  refine ⟨by decide, by decide, by decide, by decide, by decide⟩

/-- C4 (corrected). Type update rule of one loop step over a parsed
manifest: a manifest that does NOT indicate Aztec sets the primary type
only while it is still the unknown sentinel and the Aztec flag is still
down; a manifest that DOES indicate Aztec with a non-contract type
overwrites any primary type except contract; a contract-type manifest
always sets contract. -/
theorem classify_type_update_rule (u : Bool) (f : String → FetchOutcome)
    (s : ClassifyState) (p : String) (c : NargoConfig)
    (hf : fetchNargoTomlFromPath (f p) = some c) :
    ((analyzeNargoConfig c).isAztec = false →
      (classifyStep u f s p).primaryType
        = if s.isAztecRepo = false ∧ s.primaryType = "unknown"
          then (analyzeNargoConfig c).type else s.primaryType)
    ∧ ((analyzeNargoConfig c).isAztec = true → (analyzeNargoConfig c).type ≠ "contract" →
      (classifyStep u f s p).primaryType
        = if s.primaryType = "contract" then s.primaryType
          else (analyzeNargoConfig c).type)
    ∧ ((analyzeNargoConfig c).type = "contract" →
      (classifyStep u f s p).primaryType = "contract") :=
  ⟨fun ha => classifyStep_type_nonAztec u f s p c hf ha,
   fun ha ht => classifyStep_type_aztec_noncontract u f s p c hf ha ht,
   fun ht => classifyStep_contract_set u f s p c hf
     ((analyzeNargoConfig_type c) ▸ ht)⟩

/-- Witness for C4: the rule applied to the initial state and the
Aztec-indicating bin manifest. -/
theorem classify_type_update_rule_witness :
    (fetchNargoTomlFromPath (c4fetch "packages/a/Nargo.toml") = some binAztecConfig)
    ∧ (((analyzeNargoConfig binAztecConfig).isAztec = false →
        (classifyStep false c4fetch initState "packages/a/Nargo.toml").primaryType
          = if initState.isAztecRepo = false ∧ initState.primaryType = "unknown"
            then (analyzeNargoConfig binAztecConfig).type else initState.primaryType)
      ∧ ((analyzeNargoConfig binAztecConfig).isAztec = true →
          (analyzeNargoConfig binAztecConfig).type ≠ "contract" →
        (classifyStep false c4fetch initState "packages/a/Nargo.toml").primaryType
          = if initState.primaryType = "contract" then initState.primaryType
            else (analyzeNargoConfig binAztecConfig).type)
      ∧ ((analyzeNargoConfig binAztecConfig).type = "contract" →
        (classifyStep false c4fetch initState "packages/a/Nargo.toml").primaryType
          = "contract")) :=
  ⟨by decide,
   classify_type_update_rule false c4fetch initState "packages/a/Nargo.toml"
     binAztecConfig (by decide)⟩

/-- Counterexample for C5: two permuted path orders over the same fetch
outcomes give different nargoType values (lib versus bin), so the full
classification outcome is not order-independent. -/
theorem classify_order_dependence_counterexample :
    (pathsToTry (.success ["a", "b"])).Perm (pathsToTry (.success ["b", "a"]))
    ∧ (classifyRepository (.success ["a", "b"]) c5fetch).nargoType = "lib"
    ∧ (classifyRepository (.success ["b", "a"]) c5fetch).nargoType = "bin"
    ∧ (classifyRepository (.success ["a", "b"]) c5fetch).nargoType
        ≠ (classifyRepository (.success ["b", "a"]) c5fetch).nargoType := by
  refine ⟨by decide, by decide, by decide, by decide⟩

/-- C5 (corrected). Permutation invariance holds for the ecosystem
verdict and the examined-manifest count, but not for the primary type:
for any two search outcomes whose candidate path lists are permutations
of each other, under the same fetch oracle, isAztec and filesChecked
agree. -/
theorem classify_perm_invariant (so1 so2 : SearchOutcome) (f : String → FetchOutcome)
    (h : (pathsToTry so1).Perm (pathsToTry so2)) :
    (classifyRepository so1 f).isAztec = (classifyRepository so2 f).isAztec
    ∧ (classifyRepository so1 f).filesChecked = (classifyRepository so2 f).filesChecked := by
  constructor
  · rw [classifyRepository_isAztec_def, classifyRepository_isAztec_def]
    unfold mainFold
    rw [foldl_isAztecRepo, foldl_isAztecRepo, any_of_perm h]
  · rw [classifyRepository_filesChecked_def, classifyRepository_filesChecked_def]
    unfold mainFold
    rw [foldl_filesChecked, foldl_filesChecked, h.countP_eq]

/-- Witness for C5: the permuted two-path scenario preserves isAztec and
filesChecked. -/
theorem classify_perm_invariant_witness :
    (pathsToTry (.success ["a", "b"])).Perm (pathsToTry (.success ["b", "a"]))
    ∧ ((classifyRepository (.success ["a", "b"]) c5fetch).isAztec
        = (classifyRepository (.success ["b", "a"]) c5fetch).isAztec
      ∧ (classifyRepository (.success ["a", "b"]) c5fetch).filesChecked
        = (classifyRepository (.success ["b", "a"]) c5fetch).filesChecked) :=
  ⟨by decide,
   classify_perm_invariant (.success ["a", "b"]) (.success ["b", "a"]) c5fetch (by decide)⟩

/-- Counterexample for C8: the fetcher maps a rate-limit outcome, a
timeout outcome and a parse failure to exactly the same null result as a
plain 404, so transient failures and malformed manifests are NOT
distinguishable from true absence at its interface. -/
theorem fetch_failure_collapse_counterexample :
    fetchNargoTomlFromPath .rateLimited = fetchNargoTomlFromPath .notFound
    ∧ fetchNargoTomlFromPath .timeout = fetchNargoTomlFromPath .notFound
    ∧ fetchNargoTomlFromPath (.found none) = fetchNargoTomlFromPath .notFound
    ∧ fetchNargoTomlFromPath .notFound = none :=
  ⟨rfl, rfl, rfl, rfl⟩

/-- C8 (corrected). Every non-success outcome — 404, directory,
rate-limit, timeout, parse failure, any other error — returns the same
null result at the fetcher interface; the failure modes are
distinguished only by log category (404 logs debug, rate-limit and
timeout log error, a parse or other failure logs warn), never by
distinct error values. -/
theorem fetch_failure_collapse (o o' : FetchOutcome)
    (h : isParsedManifest o = false) (h' : isParsedManifest o' = false) :
    fetchNargoTomlFromPath o = none
    ∧ fetchNargoTomlFromPath o = fetchNargoTomlFromPath o'
    ∧ fetchLogOf .notFound = .debugNotFound
    ∧ fetchLogOf .rateLimited = .errorRateLimited
    ∧ fetchLogOf .timeout = .errorTimeout
    ∧ fetchLogOf (.found none) = .warnFetchFailed := by
  have e : ∀ x : FetchOutcome, isParsedManifest x = false →
      fetchNargoTomlFromPath x = none := by
    intro x hx
    cases x with
    | found parsed =>
      cases parsed with
      | some c => simp [isParsedManifest] at hx
      | none => rfl
    | foundDir => rfl
    | notFound => rfl
    | rateLimited => rfl
    | timeout => rfl
    | otherError => rfl
  exact ⟨e o h, (e o h).trans (e o' h').symm, rfl, rfl, rfl, rfl⟩

/-- Witness for C8: applied to the rate-limit and 404 outcomes. -/
theorem fetch_failure_collapse_witness :
    (isParsedManifest .rateLimited = false ∧ isParsedManifest .notFound = false)
    ∧ (fetchNargoTomlFromPath .rateLimited = none
      ∧ fetchNargoTomlFromPath .rateLimited = fetchNargoTomlFromPath .notFound
      ∧ fetchLogOf .notFound = .debugNotFound
      ∧ fetchLogOf .rateLimited = .errorRateLimited
      ∧ fetchLogOf .timeout = .errorTimeout
      ∧ fetchLogOf (.found none) = .warnFetchFailed) :=
  ⟨⟨rfl, rfl⟩, fetch_failure_collapse .rateLimited .notFound rfl rfl⟩
